import Mathlib

/-!
Shallow embedding of the response-resolution pipeline and the bounded
conversation-history store of the `rag_api` repository
(`src/main.py`, `src/agent.py`, `src/tool.py`), together with theorems
settling the frozen claims about them.

Conventions: Python strings are Lean `String`; Python lists are Lean
`List`; a Python value that may be an exception is an `Except String`
input; `None` from a fallible parse is `Option.none`.
-/

namespace RagApi

/-- One tool invocation recorded by the intent resolver, as consumed by
`extract_tools_name` in `src/main.py` (fields `tool_name`, `content`,
`raw_input`, `raw_output` of a llama-index `ToolOutput`). -/
structure Invocation where
  tool_name : String
  content : String
  raw_input : String
  raw_output : String
deriving DecidableEq

/-- An element of the `tool_name` list built by `extract_tools_name`:
the dict `{"action": function.tool_name}` (src/main.py line 81). -/
structure ToolAction where
  action : String
deriving DecidableEq

/-- An element of the `agent_sources` list built by `extract_tools_name`:
the dict `{"thought", "tool_name", "raw_input", "raw_output"}`
(src/main.py lines 82-89). -/
structure ToolDetail where
  thought : String
  tool_name : String
  raw_input : String
  raw_output : String
deriving DecidableEq

/-- The loop body of `extract_tools_name` (src/main.py lines 79-91):
accumulators `tool_name`, `agent_sources` and `flag` are threaded through
the list of functions; `flag` is cleared by any invocation whose tool is
not the skip sentinel. -/
def extract_loop : List Invocation → List ToolAction → List ToolDetail → Bool →
    List ToolAction × List ToolDetail × Bool
  | [], tool_name, agent_sources, flag => (tool_name, agent_sources, flag)
  | f :: rest, tool_name, agent_sources, flag =>
      extract_loop rest
        (tool_name ++ [{ action := f.tool_name }])
        (agent_sources ++ [{ thought := f.content, tool_name := f.tool_name,
                             raw_input := f.raw_input, raw_output := f.raw_output }])
        (if f.tool_name ≠ "skip_response_to_the_user" then false else flag)

/-- `extract_tools_name` (src/main.py lines 64-93): projects the invocation
list into the `{action}` list and the detail list, and computes the
all-skip flag.  The Python `if functions:` guard is the identity on the
result (an empty list skips the loop and returns the initial accumulators,
exactly what the loop on `[]` does). -/
def extract_tools_name (functions : List Invocation) :
    List ToolAction × List ToolDetail × Bool :=
  extract_loop functions [] [] true

/-- The dict `tool_response_dicte` (src/main.py lines 130-133), as a
partial lookup: the two keys present map to their canned responses. -/
def tool_response_dicte : String → Option String
  | "talk_to_human_agent" => some "Tell user we are connecting you to a human agent. "
  | "greetings" => some "Hello, I am Smaro. I can help you with user scheduling, uploading images, and assist with talking to a human agent. "
  | _ => none

/-- The canned handoff response, value of `tool_response_dicte["talk_to_human_agent"]`. -/
def cannedHandoff : String := "Tell user we are connecting you to a human agent. "

/-- The canned greeting response, value of `tool_response_dicte["greetings"]`. -/
def cannedGreet : String := "Hello, I am Smaro. I can help you with user scheduling, uploading images, and assist with talking to a human agent. "

/-- The loop of `deal_with_empty` (src/main.py lines 137-139): for each
element of `tools_names` whose `action` is one of the dict's two keys,
append that key's canned response to the running text. -/
def dealLoop : String → List ToolAction → String
  | response, [] => response
  | response, tool :: rest =>
      if tool.action = "talk_to_human_agent" ∨ tool.action = "greetings" then
        dealLoop (response ++ ((tool_response_dicte tool.action).getD "")) rest
      else
        dealLoop response rest

/-- `deal_with_empty` (src/main.py lines 135-140): only an empty response
enters the canned-response loop; a non-empty response is returned as is. -/
def deal_with_empty (response : String) (tools_names : List ToolAction) : String :=
  if response = "" then dealLoop response tools_names else response

/-- The full canned greeting sentence compared against on src/main.py
line 171 (note the trailing space). -/
def greetingFull : String := "Hello I am Smaro. I can help you with answering frequently asked question, and assist with talking to human agent. "

/-- The fixed fallback sentence assigned on src/main.py line 181. -/
def fallbackSentence : String := "Hello. I am Smaro. I can help you with answering frequently asked question, and assist with talking to human agent"

/-- The handoff-identifier replacement of src/main.py lines 166-167: a
response equal to the tool identifier is replaced by the canonical handoff
sentence (no trailing space on line 167). -/
def replace_handoff_echo (response : String) : String :=
  if response = "talk_to_human_agent" then
    "Tell user we are connecting you to a human agent."
  else
    response

/-- The tail of `handle_message` (src/main.py lines 171-185): the
`Welcome`/full-greeting early return (line 171) and the
empty/skip-sentinel/`None` fallback (lines 174-181). -/
def finalize (response : String) : String :=
  if response = "Welcome" ∨ response = greetingFull then
    response
  else if response = "" ∨ response = "skip_response_to_the_user" ∨ response = "None" then
    fallbackSentence
  else
    response

/-- The response-resolution chain of `handle_message` (src/main.py lines
161-185), applied after `extract_tools_name`: canned-response fill for an
empty reply (line 165), the handoff-identifier replacement (line 166), and
the terminal checks of lines 171-181. -/
def resolve_response (raw : String) (tools_names : List ToolAction) : String :=
  finalize (replace_handoff_echo (deal_with_empty raw tools_names))

/-- The pure core of `handle_message` (src/main.py lines 143-185): from
the agent result's raw text `res.response` and its invocation list
`res.sources`, produce the triple (final text, tool-name list, tool-detail
list) that the function returns. -/
def handle_message (raw : String) (sources : List Invocation) :
    String × List ToolAction × List ToolDetail :=
  (resolve_response raw (extract_tools_name sources).1,
   (extract_tools_name sources).1,
   (extract_tools_name sources).2.1)

/-- The tool catalog of `DoctorTool.spec_functions` (src/tool.py lines
102-107): the four internal tool identifiers. -/
def spec_functions : List String :=
  ["answer_frequently_asked_question", "talk_to_human_agent",
   "skip_response_to_the_user", "greetings"]

/-- Message roles of the llama-index `ChatMessage` values built in
`src/agent.py` (USER, FUNCTION, ASSISTANT). -/
inductive MessageRole where
  | user
  | assistant
  | function
deriving DecidableEq

/-- A llama-index `ChatMessage` as built in `src/agent.py`: role, content,
and the optional `additional_kwargs={"name": tool}` used for FUNCTION
messages. -/
structure ChatMessage where
  role : MessageRole
  content : String
  name : Option String := none
deriving DecidableEq

/-- One row of the flat CSV log, columns `type`, `message`, `tool`
(src/main.py lines 96-128, read back in src/agent.py lines 42-59). -/
structure CsvRow where
  rowType : String
  message : String
  tool : String
deriving DecidableEq

/-- The per-row mapping of `get_history_from_csv` (src/agent.py lines
51-57): "user" → USER, "function" → FUNCTION with the tool name, anything
else → ASSISTANT. -/
def csvRowToMessage (r : CsvRow) : ChatMessage :=
  if r.rowType = "user" then
    { role := .user, content := r.message }
  else if r.rowType = "function" then
    { role := .function, content := r.message, name := some r.tool }
  else
    { role := .assistant, content := r.message }

/-- The Python slice `l[-n:]`: the last (at most) `n` elements of `l`. -/
def lastN (n : Nat) (l : List α) : List α :=
  l.drop (l.length - n)

/-- `AgentManager.get_history_from_csv` (src/agent.py lines 42-59): if the
file exists, map its rows to messages; in every case return the Python
slice `[-20:]`, i.e. the last (at most) 20 entries. -/
def get_history_from_csv (fileExists : Bool) (rows : List CsvRow) : List ChatMessage :=
  lastN 20 (if fileExists then rows.map csvRowToMessage else [])

/-- One entry of the `"functions"` list inside a bot row's parsed
`meta_data` (src/agent.py lines 105-107): fields `thought`, `tool_name`. -/
structure FuncEntry where
  thought : String
  tool_name : String
deriving DecidableEq

/-- A parsed `meta_data` value as tested on src/agent.py line 104: either
a truthy dict containing a `"functions"` key (with its list), or any other
parsed value (falsy, or without that key), which emits no FUNCTION turns. -/
inductive MetaVal where
  | noFunctions
  | withFunctions (fs : List FuncEntry)
deriving DecidableEq

/-- `AgentManager.safe_literal_eval` (src/agent.py lines 144-152): the
fallible `ast.literal_eval` parse is the `Except` input (`Except.error`
for a `ValueError`/`SyntaxError`, and for a non-string input); the wrapper
returns `None` on failure and the parsed value otherwise. -/
def safe_literal_eval : Except String MetaVal → Option MetaVal
  | .ok v => some v
  | .error _ => none

/-- One row of the relational `chat` table as consumed by
`get_chat_history_from_db` (src/agent.py lines 96-98): `type`, `message`,
and the raw `meta_data` parse outcome fed to `safe_literal_eval`. -/
structure DbRow where
  rowType : String
  message : String
  meta_data : Except String MetaVal

/-- Python `str.strip(c)`: remove every leading and trailing occurrence of
the character `c`. -/
def pyStripChar (c : Char) (s : String) : String :=
  String.mk (((s.data.dropWhile (fun d => d == c)).reverse.dropWhile (fun d => d == c)).reverse)

/-- The `message.strip('"').strip("'")` applied to user and bot messages
on src/agent.py lines 102 and 108. -/
def stripQuotes (s : String) : String :=
  pyStripChar '\'' (pyStripChar '"' s)

/-- The per-row body of the loop in `get_chat_history_from_db`
(src/agent.py lines 100-108): a "user" row yields one USER message; a
"bot" row yields the FUNCTION messages of its parsed metadata's
`"functions"` list (none when the metadata is unparseable or has no such
key) followed by one ASSISTANT message; any other row yields nothing. -/
def dbRowToMessages (r : DbRow) : List ChatMessage :=
  if r.rowType = "user" then
    [{ role := .user, content := stripQuotes r.message }]
  else if r.rowType = "bot" then
    (match safe_literal_eval r.meta_data with
     | some (.withFunctions fs) =>
         fs.map (fun f => { role := .function, content := f.thought,
                            name := some f.tool_name })
     | _ => []) ++
    [{ role := .assistant, content := stripQuotes r.message }]
  else
    []

/-- `AgentManager.get_chat_history_from_db` (src/agent.py lines 88-113):
the whole body is wrapped in `try/except Exception: return []`, so any
failure while querying (`get_history_from_sql` itself, modelled by the
`Except.error` input) or transforming yields `[]`; on success the rows are
expanded row by row and the Python slice `[-10:-1]` is returned.
The slice `chat_messages[-10:-1]` equals `chat_messages[-10:]` with its
own last element dropped (both are empty on an empty list), which is how
it is written here. -/
def get_chat_history_from_db (queryResult : Except String (List DbRow)) :
    List ChatMessage :=
  match queryResult with
  | .error _ => []
  | .ok rows => (lastN 10 (rows.flatMap dbRowToMessages)).dropLast

/-- The agent configuration assembled by `AgentManager.build_agent`
(src/agent.py lines 115-142): the fields of the
`OpenAIAgent.from_tools` call that the claims are about. -/
structure AgentConfig where
  tools : List String
  verbose : Bool
  system_prompt_nonempty : Bool
  chat_history : List ChatMessage
deriving DecidableEq

/-- `AgentManager.build_agent` (src/agent.py lines 115-142): the call to
`self.get_chat_history_from_db` (line 132) is commented out and the agent
is constructed with `chat_history=[]` (line 140), whatever the database
holds (`dbHistory` is the window the store would have supplied). -/
def build_agent (_dbHistory : List ChatMessage) : AgentConfig :=
  { tools := spec_functions
    verbose := true
    system_prompt_nonempty := true
    chat_history := [] }

/-- One row appended to the flat log by `save_history`
(src/main.py lines 96-128). -/
def save_history (user_message : String) (bot_message : String)
    (functions : List ToolDetail) : List CsvRow :=
  { rowType := "user", message := user_message, tool := "" } ::
    functions.map (fun f => { rowType := "function", message := f.thought,
                              tool := f.tool_name }) ++
    [{ rowType := "bot", message := bot_message, tool := "" }]

/-- The rows the `converse` endpoint persists per turn: the
`save_history(dto.prompt, response, functions)` call at src/main.py line
227 is commented out, so no row is written. -/
def converse_history_writes : List CsvRow := []

/-- The response DTO of the `converse` endpoint
(src/main.py lines 54-61). -/
structure ConverseResponseDto where
  response : String
  success : Bool
  error : String
  type : List ToolAction
  functions : List ToolDetail
deriving DecidableEq

/-- The fixed degraded-service sentence of the `except` branch of
`converse` (src/main.py line 233). -/
def degradedSentence : String := "Sorry, I'm having technical issues. I can help you by answering frequently asked question, and assist with talking to human agent"

/-- The `converse` endpoint (src/main.py lines 211-238): on success it
wraps `handle_message`'s triple with `success=True` and an empty error; on
any exception (modelled by the `Except.error` input, carrying `str(e)`) it
returns the degraded DTO instead of raising. -/
def converse (handled : Except String (String × List ToolAction × List ToolDetail)) :
    ConverseResponseDto :=
  match handled with
  | .ok (response, tools_names, functions) =>
      { response := response, success := true, error := "",
        type := tools_names, functions := functions }
  | .error e =>
      { response := degradedSentence, success := false, error := e,
        type := [], functions := [] }

/-! ## Helper lemmas -/

/-- The loop of `extract_tools_name` appends the projections of the
remaining invocations to the accumulators. -/
theorem extract_loop_eq (l : List Invocation) (tn : List ToolAction)
    (ds : List ToolDetail) (flag : Bool) :
    (extract_loop l tn ds flag).1 =
      tn ++ l.map (fun f => { action := f.tool_name }) ∧
    (extract_loop l tn ds flag).2.1 =
      ds ++ l.map (fun f => { thought := f.content, tool_name := f.tool_name,
                              raw_input := f.raw_input, raw_output := f.raw_output }) := by
  induction l generalizing tn ds flag with
  | nil => simp [extract_loop]
  | cons f rest ih =>
      have h := ih (tn ++ [{ action := f.tool_name }])
        (ds ++ [{ thought := f.content, tool_name := f.tool_name,
                  raw_input := f.raw_input, raw_output := f.raw_output }])
        (if f.tool_name ≠ "skip_response_to_the_user" then false else flag)
      simp only [extract_loop]
      rw [h.1, h.2]
      simp

/-- The canned-response loop factors through its accumulator. -/
theorem dealLoop_append (ts : List ToolAction) (acc : String) :
    dealLoop acc ts = acc ++ dealLoop "" ts := by
  induction ts generalizing acc with
  | nil => simp [dealLoop]
  | cons t rest ih =>
      by_cases h : t.action = "talk_to_human_agent" ∨ t.action = "greetings"
      · simp only [dealLoop, if_pos h]
        rw [ih, ih ("" ++ ((tool_response_dicte t.action).getD ""))]
        simp [String.append_assoc]
      · simp only [dealLoop, if_neg h]
        exact ih acc

/-- A tool-name entry whose action has a canned response in
`tool_response_dicte`. -/
def isCannedTool (t : ToolAction) : Bool :=
  t.action == "talk_to_human_agent" || t.action == "greetings"

/-- Concatenation of the canned responses of a list of tool names. -/
def cannedConcat : List ToolAction → String
  | [] => ""
  | t :: rest => ((tool_response_dicte t.action).getD "") ++ cannedConcat rest

/-- On an empty starting text, the canned-response loop produces exactly
the concatenation of the canned responses of the matching invocations,
in invocation order. -/
theorem dealLoop_eq_cannedConcat (ts : List ToolAction) :
    dealLoop "" ts = cannedConcat (ts.filter isCannedTool) := by
  induction ts with
  | nil => rfl
  | cons t rest ih =>
      by_cases h : t.action = "talk_to_human_agent" ∨ t.action = "greetings"
      · have hb : isCannedTool t = true := by
          rcases h with h | h <;> simp [isCannedTool, h]
        simp only [dealLoop, if_pos h, List.filter_cons, hb, if_true]
        rw [dealLoop_append, ih]
        simp [cannedConcat]
      · have hb : isCannedTool t = false := by
          push_neg at h
          simp [isCannedTool, h.1, h.2]
        simp only [dealLoop, if_neg h, List.filter_cons, hb]
        simpa using ih

/-- `finalize` never returns the empty string, the skip sentinel or the
literal `None`. -/
theorem finalize_ne (r : String) :
    finalize r ≠ "" ∧ finalize r ≠ "skip_response_to_the_user" ∧
    finalize r ≠ "None" := by
  unfold finalize
  by_cases h1 : r = "Welcome" ∨ r = greetingFull
  · rw [if_pos h1]
    rcases h1 with h | h <;> subst h <;> exact ⟨by decide, by decide, by decide⟩
  · rw [if_neg h1]
    by_cases h2 : r = "" ∨ r = "skip_response_to_the_user" ∨ r = "None"
    · rw [if_pos h2]
      exact ⟨by decide, by decide, by decide⟩
    · rw [if_neg h2]
      push_neg at h2
      exact ⟨h2.1, h2.2.1, h2.2.2⟩

/-- `finalize` preserves being different from the handoff identifier. -/
theorem finalize_ne_talk (r : String) (h : r ≠ "talk_to_human_agent") :
    finalize r ≠ "talk_to_human_agent" := by
  unfold finalize
  by_cases h1 : r = "Welcome" ∨ r = greetingFull
  · rw [if_pos h1]
    exact h
  · rw [if_neg h1]
    by_cases h2 : r = "" ∨ r = "skip_response_to_the_user" ∨ r = "None"
    · rw [if_pos h2]
      decide
    · rw [if_neg h2]
      exact h

/-- The output of `replace_handoff_echo` is never the handoff
identifier itself. -/
theorem replace_handoff_echo_ne_talk (r : String) :
    replace_handoff_echo r ≠ "talk_to_human_agent" := by
  unfold replace_handoff_echo
  by_cases h : r = "talk_to_human_agent"
  · rw [if_pos h]
    decide
  · rw [if_neg h]
    exact h

/-- `lastN` returns at most `n` elements. -/
theorem lastN_length_le (n : Nat) (l : List α) : (lastN n l).length ≤ n := by
  simp only [lastN, List.length_drop]
  omega

/-- `lastN` is a suffix of its input. -/
theorem lastN_suffix (n : Nat) (l : List α) : lastN n l <:+ l :=
  List.drop_suffix _ _

/-- Dropping from the front and dropping the last element commute. -/
theorem drop_dropLast_comm (l : List α) (n : Nat) :
    (l.drop n).dropLast = l.dropLast.drop n := by
  simp [List.dropLast_eq_take, List.drop_take, List.length_drop]
  rw [Nat.min_eq_left (by omega)]
  omega

example : handle_message "hello there" [] = ("hello there", [], []) := by decide

example :
    (handle_message "" [⟨"talk_to_human_agent", "t", "i", "o"⟩]).1 =
      "Tell user we are connecting you to a human agent. " := by decide

example : (handle_message "" [⟨"skip_response_to_the_user", "t", "i", "o"⟩]).1 =
    fallbackSentence := by decide

/-! ## Claim theorems -/

/-- C1: for every raw agent text and every invocation list, if the raw
text is non-empty and is not one of the sentinel/echo strings (the handoff
identifier, the skip sentinel, the literal `None`, the thank-you
acknowledgment `Welcome`, or the full canned greeting sentence), the final
text returned by `handle_message` equals the raw text exactly. -/
theorem C1_authority_of_text (raw : String) (sources : List Invocation)
    (h0 : raw ≠ "") (h1 : raw ≠ "talk_to_human_agent")
    (h2 : raw ≠ "skip_response_to_the_user") (h3 : raw ≠ "None")
    (h4 : raw ≠ "Welcome") (h5 : raw ≠ greetingFull) :
    (handle_message raw sources).1 = raw := by
  have hd : deal_with_empty raw (extract_tools_name sources).1 = raw := if_neg h0
  simp only [handle_message, resolve_response, hd, replace_handoff_echo, if_neg h1]
  unfold finalize
  rw [if_neg (not_or.mpr ⟨h4, h5⟩), if_neg (by simp [h0, h2, h3])]

/-- C1 witness: a concrete non-sentinel text passes through unchanged. -/
theorem C1_authority_of_text_witness :
    (handle_message "Our clinic opens at 9am." []).1 = "Our clinic opens at 9am." :=
  C1_authority_of_text "Our clinic opens at 9am." []
    (by decide) (by decide) (by decide) (by decide) (by decide) (by decide)

/-- C2 counterexample: when the raw text is the internal tool identifier
`answer_frequently_asked_question` (a member of the catalog
`spec_functions`), `handle_message` returns it verbatim, so the final text
can equal an internal tool identifier of the catalog. -/
theorem C2_counterexample :
    (handle_message "answer_frequently_asked_question" []).1 =
      "answer_frequently_asked_question" ∧
    "answer_frequently_asked_question" ∈ spec_functions := by
  exact ⟨by decide, by decide⟩

/-- C2 amended: the final text returned by `handle_message` is never the
empty string, never the literal `None`, and never the handoff identifier
or the skip identifier; the guards of src/main.py lines 166-181 do not
cover the identifiers `answer_frequently_asked_question` and
`greetings`. -/
theorem C2_amended_never_degenerate (raw : String) (sources : List Invocation) :
    (handle_message raw sources).1 ≠ "" ∧
    (handle_message raw sources).1 ≠ "None" ∧
    (handle_message raw sources).1 ≠ "talk_to_human_agent" ∧
    (handle_message raw sources).1 ≠ "skip_response_to_the_user" := by
  have h1 := finalize_ne
    (replace_handoff_echo (deal_with_empty raw (extract_tools_name sources).1))
  have h2 := finalize_ne_talk
    (replace_handoff_echo (deal_with_empty raw (extract_tools_name sources).1))
    (replace_handoff_echo_ne_talk (deal_with_empty raw (extract_tools_name sources).1))
  exact ⟨h1.1, h1.2.2, h2, h1.2.1⟩

set_option maxRecDepth 8192 in
/-- C3: if the raw text is empty and the matching canned-response
invocations are a handoff call followed by a greet call, the final text is
the concatenation of the two canned responses in invocation order. -/
theorem C3_canned_concatenation (sources : List Invocation)
    (h : ((extract_tools_name sources).1).filter isCannedTool =
         [{ action := "talk_to_human_agent" }, { action := "greetings" }]) :
    (handle_message "" sources).1 = cannedHandoff ++ cannedGreet := by
  have hd : deal_with_empty "" (extract_tools_name sources).1 =
      cannedConcat [{ action := "talk_to_human_agent" }, { action := "greetings" }] := by
    unfold deal_with_empty
    rw [if_pos rfl, dealLoop_eq_cannedConcat, h]
  simp only [handle_message, resolve_response, hd]
  decide

/-- C3 witness: a concrete handoff-then-greet invocation list with empty
raw text yields both canned responses concatenated. -/
theorem C3_canned_concatenation_witness :
    ((extract_tools_name
        [⟨"talk_to_human_agent", "escalating", "in1", "out1"⟩,
         ⟨"greetings", "greeting", "in2", "out2"⟩]).1).filter isCannedTool =
      [{ action := "talk_to_human_agent" }, { action := "greetings" }] ∧
    (handle_message ""
        [⟨"talk_to_human_agent", "escalating", "in1", "out1"⟩,
         ⟨"greetings", "greeting", "in2", "out2"⟩]).1 =
      cannedHandoff ++ cannedGreet :=
  ⟨by decide, C3_canned_concatenation _ (by decide)⟩

/-- C4: if after the canned-response step the text is empty, or equals the
skip sentinel, or equals the literal `None`, the final text is the fixed
fallback sentence. -/
theorem C4_fallback (raw : String) (sources : List Invocation)
    (h : deal_with_empty raw (extract_tools_name sources).1 = "" ∨
         deal_with_empty raw (extract_tools_name sources).1 = "skip_response_to_the_user" ∨
         deal_with_empty raw (extract_tools_name sources).1 = "None") :
    (handle_message raw sources).1 = fallbackSentence := by
  simp only [handle_message, resolve_response]
  rcases h with h | h | h <;> rw [h] <;> decide

/-- C4 witness: empty raw text with no invocations at all falls through to
the fixed fallback sentence. -/
theorem C4_fallback_witness :
    deal_with_empty "" (extract_tools_name ([] : List Invocation)).1 = "" ∧
    (handle_message "" ([] : List Invocation)).1 = fallbackSentence :=
  ⟨by decide, C4_fallback "" [] (Or.inl (by decide))⟩

/-- C5: the flat-file window has at most 20 entries, keeps the most recent
entries in order (it is a suffix of the full transformed log), and is
empty when the file is absent; the relational window has at most 9 turns
and always excludes the single most recent entry of the ordered result
(it is a suffix of the expanded result with its last element dropped). -/
theorem C5_window_bounds :
    (∀ (fileExists : Bool) (rows : List CsvRow),
        (get_history_from_csv fileExists rows).length ≤ 20) ∧
    (∀ rows : List CsvRow,
        get_history_from_csv true rows <:+ rows.map csvRowToMessage) ∧
    (∀ rows : List CsvRow, get_history_from_csv false rows = []) ∧
    (∀ queryResult : Except String (List DbRow),
        (get_chat_history_from_db queryResult).length ≤ 9) ∧
    (∀ rows : List DbRow,
        get_chat_history_from_db (Except.ok rows) <:+
          (rows.flatMap dbRowToMessages).dropLast) := by
  refine ⟨?_, ?_, ?_, ?_, ?_⟩
  · intro fileExists rows
    exact lastN_length_le 20 _
  · intro rows
    have h : get_history_from_csv true rows = lastN 20 (rows.map csvRowToMessage) := by
      simp [get_history_from_csv]
    rw [h]
    exact lastN_suffix 20 _
  · intro rows
    rfl
  · intro queryResult
    match queryResult with
    | .error e => simp [get_chat_history_from_db]
    | .ok rows =>
        show ((lastN 10 (rows.flatMap dbRowToMessages)).dropLast).length ≤ 9
        rw [List.length_dropLast]
        have := lastN_length_le 10 (rows.flatMap dbRowToMessages)
        omega
  · intro rows
    show (lastN 10 (rows.flatMap dbRowToMessages)).dropLast <:+
      (rows.flatMap dbRowToMessages).dropLast
    rw [lastN, drop_dropLast_comm]
    exact List.drop_suffix _ _

/-- C6: a failure while querying the relational source or transforming its
rows (the `Except.error` outcome) makes `get_chat_history_from_db` return
the empty window; being a total Lean function, it raises nothing to its
caller. -/
theorem C6_db_failure_yields_empty :
    ∀ e : String, get_chat_history_from_db (Except.error e) = [] :=
  fun _ => rfl

/-- C7: a bot row whose metadata does not parse emits no FUNCTION turns,
still emits its ASSISTANT turn, and leaves the turns of all surrounding
rows unchanged. -/
theorem C7_malformed_metadata_local (pre post : List DbRow) (r : DbRow) (s : String)
    (htype : r.rowType = "bot") (hmeta : r.meta_data = Except.error s) :
    dbRowToMessages r =
      [{ role := MessageRole.assistant, content := stripQuotes r.message }] ∧
    (pre ++ r :: post).flatMap dbRowToMessages =
      pre.flatMap dbRowToMessages ++
        [{ role := MessageRole.assistant, content := stripQuotes r.message }] ++
      post.flatMap dbRowToMessages := by
  have h1 : dbRowToMessages r =
      [{ role := MessageRole.assistant, content := stripQuotes r.message }] := by
    simp [dbRowToMessages, htype, hmeta, safe_literal_eval]
  refine ⟨h1, ?_⟩
  rw [List.flatMap_append, List.flatMap_cons, h1]
  simp [List.append_assoc]

/-- A concrete well-formed user row, used by the C7 witness. -/
def demoUserRow1 : DbRow :=
  { rowType := "user", message := "hi", meta_data := Except.ok MetaVal.noFunctions }

/-- A concrete bot row whose metadata parse failed, used by the C7 witness. -/
def demoBadBotRow : DbRow :=
  { rowType := "bot", message := "all good", meta_data := Except.error "unparseable" }

/-- A second concrete well-formed user row, used by the C7 witness. -/
def demoUserRow2 : DbRow :=
  { rowType := "user", message := "bye", meta_data := Except.ok MetaVal.noFunctions }

/-- C7 witness: a concrete malformed bot row between two well-formed rows
contributes exactly its assistant turn. -/
theorem C7_malformed_metadata_local_witness :
    dbRowToMessages demoBadBotRow =
      [{ role := MessageRole.assistant, content := stripQuotes "all good" }] ∧
    ([demoUserRow1] ++ demoBadBotRow :: [demoUserRow2]).flatMap dbRowToMessages =
      [demoUserRow1].flatMap dbRowToMessages ++
        [{ role := MessageRole.assistant, content := stripQuotes "all good" }] ++
      [demoUserRow2].flatMap dbRowToMessages :=
  C7_malformed_metadata_local [demoUserRow1] [demoUserRow2]
    demoBadBotRow "unparseable" rfl rfl

/-- C8: every internal failure of message handling makes the endpoint
return (not raise) `success = false`, the underlying error message in the
`error` field, and the one fixed degraded-service sentence as the
response text. -/
theorem C8_degraded_response :
    ∀ e : String, converse (Except.error e) =
      { response := degradedSentence, success := false, error := e,
        type := [], functions := [] } :=
  fun _ => rfl

/-- C9 counterexample: the agent is built with an empty chat history even
when the history store supplies a non-empty window, and the endpoint
persists no rows even though the history writer would produce some, so
the claimed data flow does not hold on the code. -/
theorem C9_counterexample :
    (build_agent [{ role := MessageRole.user, content := "hi" }]).chat_history = [] ∧
    ([{ role := MessageRole.user, content := "hi" }] : List ChatMessage) ≠ [] ∧
    converse_history_writes = [] ∧
    save_history "hi" "hello" [] ≠ [] := by
  exact ⟨rfl, by decide, rfl, by decide⟩

/-- C9 amended: the agent is always built with an empty chat history (the
database window of src/agent.py line 132 is commented out and line 140
passes `[]`), the turn is never persisted (the `save_history` call at
src/main.py line 227 is commented out), and the resolution triple is
returned to the caller unchanged with `success = true`. -/
theorem C9_amended_no_history_flow :
    (∀ dbHistory : List ChatMessage, (build_agent dbHistory).chat_history = []) ∧
    converse_history_writes = [] ∧
    (∀ (response : String) (tools_names : List ToolAction) (functions : List ToolDetail),
        converse (Except.ok (response, tools_names, functions)) =
          { response := response, success := true, error := "",
            type := tools_names, functions := functions }) :=
  ⟨fun _ => rfl, rfl, fun _ _ _ => rfl⟩

/-- C10: projecting any ordered invocation list into the tool-name list
and the tool-detail list preserves length and order (each output is the
elementwise image of the input). -/
theorem C10_projection_preserves_order :
    ∀ l : List Invocation,
      (extract_tools_name l).1 = l.map (fun f => { action := f.tool_name }) ∧
      (extract_tools_name l).2.1 =
        l.map (fun f => { thought := f.content, tool_name := f.tool_name,
                          raw_input := f.raw_input, raw_output := f.raw_output }) ∧
      (extract_tools_name l).1.length = l.length ∧
      (extract_tools_name l).2.1.length = l.length := by
  intro l
  have h := extract_loop_eq l [] [] true
  have h1 : (extract_tools_name l).1 =
      l.map (fun f => { action := f.tool_name }) := by
    simpa [extract_tools_name] using h.1
  have h2 : (extract_tools_name l).2.1 =
      l.map (fun f => { thought := f.content, tool_name := f.tool_name,
                        raw_input := f.raw_input, raw_output := f.raw_output }) := by
    simpa [extract_tools_name] using h.2
  refine ⟨h1, h2, ?_, ?_⟩
  · rw [h1, List.length_map]
  · rw [h2, List.length_map]

end RagApi
